import Mathlib

/-!
Shallow embedding of the notes frontend (src/notes_frontend).

The single interactive page component (src/app/page.tsx) owns all mutable
state; its event handlers are embedded here as pure state-transition
functions.  A network round trip is modelled by passing the call's outcome
as an explicit argument (`Option` result: `some` on HTTP success, `none`
when the promise rejects); each handler additionally returns the request it
issued, so that "no network request" is expressible.  The tailwind theme
configuration (tailwind.config.js) is embedded as a static record.
-/

/-- The Note entity, as declared in page.tsx. -/
structure Note where
  id : String
  title : String
  content : String
  updated_at : String
  created_at : String
deriving DecidableEq, Repr

/-- View mode: "list" | "edit" | "new". -/
inductive ViewMode where
  | list
  | edit
  | new
deriving DecidableEq, Repr

/-- The form draft `{ title, content }` bound to the create/edit form. -/
structure FormData where
  title : String
  content : String
deriving DecidableEq, Repr

/-- The component state: the seven useState hooks of `Home`. -/
structure AppState where
  notes : List Note
  search : String
  loading : Bool
  selected : Option Note
  view : ViewMode
  formData : FormData
  error : Option String
deriving DecidableEq, Repr

/-- A network request issued by a handler (method, target URL, body). -/
inductive ApiCall where
  | fetchNotes (url : String)
  | createNote (url : String) (body : FormData)
  | updateNote (url : String) (body : FormData)
  | deleteNote (url : String)
deriving DecidableEq, Repr

/-- `process.env.NEXT_PUBLIC_API_URL || "http://localhost:4000/api"`:
an unset or empty (falsy) environment value falls back to the default. -/
def BASE_URL (envApiUrl : Option String) : String :=
  match envApiUrl with
  | some u => if u = "" then "http://localhost:4000/api" else u
  | none => "http://localhost:4000/api"

/-- Is `c` in the ECMAScript uriUnescaped set (left intact by
`encodeURIComponent`): ASCII letters, digits, and - _ . ! ~ * ' ( ). -/
def isUriUnescaped (c : Char) : Bool :=
  c.isAlpha || c.isDigit ||
    c = '-' || c = '_' || c = '.' || c = '!' || c = '~' ||
    c = '*' || c = '\'' || c = '(' || c = ')'

/-- Uppercase hexadecimal digit for `n < 16`. -/
def hexDigitChar (n : Nat) : Char :=
  if n < 10 then Char.ofNat (48 + n) else Char.ofNat (55 + n)

/-- Percent-encode one byte as `%XY` with uppercase hex. -/
def percentEncodeByte (b : Nat) : String :=
  String.mk ['%', hexDigitChar (b / 16), hexDigitChar (b % 16)]

/-- UTF-8 encoding of a Unicode scalar value, as a list of byte values. -/
def utf8EncodeNat (n : Nat) : List Nat :=
  if n < 0x80 then [n]
  else if n < 0x800 then [0xC0 + n / 64, 0x80 + n % 64]
  else if n < 0x10000 then
    [0xE0 + n / 4096, 0x80 + (n / 64) % 64, 0x80 + n % 64]
  else
    [0xF0 + n / 262144, 0x80 + (n / 4096) % 64, 0x80 + (n / 64) % 64,
      0x80 + n % 64]

/-- The JavaScript `encodeURIComponent` builtin: characters in the
uriUnescaped set pass through; every other character is UTF-8 encoded and
each byte percent-encoded. -/
def encodeURIComponent (s : String) : String :=
  String.join (s.data.map fun c =>
    if isUriUnescaped c then String.mk [c]
    else String.join ((utf8EncodeNat c.toNat).map percentEncodeByte))

/-- Request target built by `fetchNotes` in page.tsx:
`query ? base + "/notes?search=" + encodeURIComponent(query) : base + "/notes"`
(the empty string is falsy in JavaScript). -/
def fetchNotesUrl (base query : String) : String :=
  if query = "" then base ++ "/notes"
  else base ++ "/notes?search=" ++ encodeURIComponent query

/-- An HTTP response: the `ok` flag and the parsed JSON body. -/
structure HttpResponse (α : Type) where
  ok : Bool
  body : α
deriving DecidableEq, Repr

/-- Response handling of `fetchNotes`: `if (!res.ok) throw new Error
("Failed to fetch notes"); return await res.json()`. -/
def fetchNotes (resp : HttpResponse (List Note)) : Except String (List Note) :=
  if resp.ok then Except.ok resp.body else Except.error "Failed to fetch notes"

/-- `reloadNotes(txt)`: sets loading, runs fetchNotes, on success replaces
the collection, on failure sets "Failed to load notes.", and always clears
loading in the `finally` block.  Returns the issued request alongside the
final state. -/
def reloadNotes (base : String) (s : AppState) (txt : String)
    (result : Option (List Note)) : AppState × ApiCall :=
  (match result with
   | some data => { s with notes := data, loading := false }
   | none => { s with error := some "Failed to load notes.", loading := false },
   ApiCall.fetchNotes (fetchNotesUrl base txt))

/-- The intermediate state of `reloadNotes` while the fetch is pending
(after `setLoading(true)`). -/
def reloadStart (s : AppState) : AppState :=
  { s with loading := true }

/-- The initial `useEffect` load: `reloadNotes()` with the default
argument `txt = ""`. -/
def initialLoad (base : String) (s : AppState)
    (result : Option (List Note)) : AppState × ApiCall :=
  reloadNotes base s "" result

/-- `handleSearch`: `await reloadNotes(search); setSelected(null);
setView("list")` — the selection clear and view switch run after
`reloadNotes` returns, whether or not the fetch inside it succeeded. -/
def handleSearch (base : String) (s : AppState)
    (result : Option (List Note)) : AppState × ApiCall :=
  let r := reloadNotes base s s.search result
  ({ r.1 with selected := none, view := ViewMode.list }, r.2)

/-- `handleSelect(note)`: records the note as selected, copies its title and
content into the form draft, and switches to `edit`.  Purely local. -/
def handleSelect (s : AppState) (note : Note) : AppState :=
  { s with
    selected := some note
    formData := { title := note.title, content := note.content }
    view := ViewMode.edit }

/-- `handleNew`: clears selection and form draft, switches to `new`. -/
def handleNew (s : AppState) : AppState :=
  { s with
    selected := none
    formData := { title := "", content := "" }
    view := ViewMode.new }

/-- The state of `handleFormSubmit` just after its synchronous prefix
`setLoading(true); setError(null)`, before any network call resolves. -/
def formSubmitStart (s : AppState) : AppState :=
  { s with loading := true, error := none }

/-- `handleFormSubmit`: after the synchronous prefix, the `edit`-with-
selection branch issues the update request and on success replaces the
collection entry matching the returned note's id and selects the returned
note; the `new` branch issues the create request and on success prepends
the returned note, selects it, and switches to `edit`; a rejected call is
caught and sets "Save failed."; any other view/selection combination does
nothing and issues no request; the `finally` block clears loading. -/
def handleFormSubmit (base : String) (s : AppState) (outcome : Option Note) :
    AppState × Option ApiCall :=
  let s1 := formSubmitStart s
  match s1.view, s1.selected, outcome with
  | ViewMode.edit, some sel, some n =>
      ({ s1 with
          notes := s1.notes.map fun x => if x.id = n.id then n else x
          selected := some n
          loading := false },
        some (ApiCall.updateNote (base ++ "/notes/" ++ sel.id) s1.formData))
  | ViewMode.edit, some sel, none =>
      ({ s1 with error := some "Save failed.", loading := false },
        some (ApiCall.updateNote (base ++ "/notes/" ++ sel.id) s1.formData))
  | ViewMode.new, _, some n =>
      ({ s1 with
          notes := n :: s1.notes
          selected := some n
          view := ViewMode.edit
          loading := false },
        some (ApiCall.createNote (base ++ "/notes") s1.formData))
  | ViewMode.new, _, none =>
      ({ s1 with error := some "Save failed.", loading := false },
        some (ApiCall.createNote (base ++ "/notes") s1.formData))
  | _, _, _ =>
      ({ s1 with loading := false }, none)

/-- `handleDelete`: returns immediately when no note is selected; otherwise
issues the delete request for the selected note's id; on success filters
that id out of the collection, clears selection, and switches to `list`;
a rejected call sets "Delete failed."; the `finally` block clears loading.
The error slot is never written on the success path. -/
def handleDelete (base : String) (s : AppState) (success : Bool) :
    AppState × Option ApiCall :=
  match s.selected with
  | none => (s, none)
  | some sel =>
      if success then
        ({ s with
            notes := s.notes.filter fun n => n.id != sel.id
            selected := none
            view := ViewMode.list
            loading := false },
          some (ApiCall.deleteNote (base ++ "/notes/" ++ sel.id)))
      else
        ({ s with error := some "Delete failed.", loading := false },
          some (ApiCall.deleteNote (base ++ "/notes/" ++ sel.id)))

/-- The list-view card's content preview:
`n.content.length > 120 ? n.content.slice(0, 120) + "…" : n.content`. -/
def notePreview (content : String) : String :=
  if content.length > 120 then content.take 120 ++ "…" else content

/-- The sidebar and card title fallback: `note.title || "Untitled"`. -/
def displayTitle (title : String) : String :=
  if title = "" then "Untitled" else title

/-- The design tokens declared by tailwind.config.js. -/
structure TailwindTheme where
  primary : String
  secondary : String
  accent : String
  background : String
  fontSans : List String
deriving DecidableEq, Repr

/-- The literal token values in tailwind.config.js `theme.extend`. -/
def tailwindTheme : TailwindTheme :=
  { primary := "#2563eb"
    secondary := "#64748b"
    accent := "#fde047"
    background := "#fff"
    fontSans := ["system-ui", "sans-serif"] }

/-- CSS three-digit hex shorthand expansion: `#abc` denotes `#aabbcc`;
anything else denotes itself. -/
def expandHexShorthand (s : String) : String :=
  match s.data with
  | ['#', a, b, c] => String.mk ['#', a, a, b, b, c, c]
  | _ => s

/-! Concrete fixtures used by counterexamples and witnesses. -/

def noteA : Note :=
  { id := "1", title := "Alpha", content := "alpha body",
    updated_at := "2024-01-01T10:00:00Z", created_at := "2024-01-01T09:00:00Z" }

def noteB : Note :=
  { id := "2", title := "Beta", content := "beta body",
    updated_at := "2024-01-02T10:00:00Z", created_at := "2024-01-02T09:00:00Z" }

def noteC : Note :=
  { id := "3", title := "Gamma", content := "gamma body",
    updated_at := "2024-01-03T10:00:00Z", created_at := "2024-01-03T09:00:00Z" }

/-- The server's answer to an update of noteB with title "New Title". -/
def noteB2 : Note :=
  { id := "2", title := "New Title", content := "beta body",
    updated_at := "2024-02-02T10:00:00Z", created_at := "2024-01-02T09:00:00Z" }

def baseState : AppState :=
  { notes := [noteA, noteB, noteC], search := "", loading := false,
    selected := none, view := ViewMode.list,
    formData := { title := "", content := "" }, error := none }

/-- baseState after selecting noteB and typing the title "New Title". -/
def editState : AppState :=
  { baseState with
    selected := some noteB
    view := ViewMode.edit
    formData := { title := "New Title", content := "beta body" } }

/-- An edit-view state whose search box holds a query matching nothing. -/
def searchEditState : AppState :=
  { editState with search := "zzz" }

def localBase : String := "http://localhost:4000/api"

/-- A `new`-view state with a filled-in draft. -/
def newState : AppState :=
  { baseState with
    view := ViewMode.new
    formData := { title := "Delta", content := "delta body" } }

/-- The server's answer to creating the draft of `newState`. -/
def noteD : Note :=
  { id := "4", title := "Delta", content := "delta body",
    updated_at := "2024-01-04T10:00:00Z", created_at := "2024-01-04T10:00:00Z" }

/-- An `edit`-view state with no selection and a stale error message. -/
def orphanEditState : AppState :=
  { baseState with
    view := ViewMode.edit
    error := some "Failed to load notes." }

/-- editState carrying a stale error message. -/
def erroredEditState : AppState :=
  { editState with error := some "Save failed." }

/-! Theorems for the claims. -/

/-- C3 counterexample: from an `edit` state with a selected note, a search
submission whose fetch fails (the error becomes "Failed to load notes.")
still switches the view to `list` and clears the selection — refuting the
claim that a search submission that does not succeed does not perform the
`edit → list` transition. -/
theorem handleSearch_failure_still_transitions :
    searchEditState.view = ViewMode.edit ∧
    searchEditState.selected = some noteB ∧
    (handleSearch localBase searchEditState none).1.error =
      some "Failed to load notes." ∧
    (handleSearch localBase searchEditState none).1.view = ViewMode.list ∧
    (handleSearch localBase searchEditState none).1.selected = none :=
  ⟨rfl, rfl, rfl, rfl, rfl⟩

/-- C3 (amended): the transition to view `list` with the selection cleared
is performed by every search submission, successful or not (an unsuccessful
one additionally leaves the collection unchanged and sets the error to
"Failed to load notes."), and by a successful delete when a note is
selected. -/
theorem search_delete_transition_to_list (base : String) (s : AppState)
    (result : Option (List Note)) :
    ((handleSearch base s result).1.view = ViewMode.list ∧
      (handleSearch base s result).1.selected = none) ∧
    (result = none →
      (handleSearch base s result).1.notes = s.notes ∧
      (handleSearch base s result).1.error = some "Failed to load notes.") ∧
    (∀ sel : Note, s.selected = some sel →
      (handleDelete base s true).1.view = ViewMode.list ∧
      (handleDelete base s true).1.selected = none) := by
  obtain ⟨notes, search, loading, selected, view, fd, err⟩ := s
  refine ⟨?_, ?_, ?_⟩
  · cases result <;> exact ⟨rfl, rfl⟩
  · rintro rfl
    exact ⟨rfl, rfl⟩
  · rintro sel rfl
    exact ⟨rfl, rfl⟩

theorem search_delete_transition_to_list_witness :
    editState.selected = some noteB ∧
    (handleDelete localBase editState true).1.view = ViewMode.list ∧
    (handleDelete localBase editState true).1.selected = none :=
  ⟨rfl,
    ((search_delete_transition_to_list localBase editState none).2.2 noteB rfl).1,
    ((search_delete_transition_to_list localBase editState none).2.2 noteB rfl).2⟩

/-- C4: in the `new` view a successful create prepends the returned note to
the front of the collection, selects it, and switches the view to `edit`. -/
theorem handleFormSubmit_new_success_spec (base : String) (s : AppState)
    (n : Note) (hv : s.view = ViewMode.new) :
    (handleFormSubmit base s (some n)).1.notes = n :: s.notes ∧
    (handleFormSubmit base s (some n)).1.selected = some n ∧
    (handleFormSubmit base s (some n)).1.view = ViewMode.edit := by
  obtain ⟨notes, search, loading, selected, view, fd, err⟩ := s
  subst hv
  cases selected <;> exact ⟨rfl, rfl, rfl⟩

theorem handleFormSubmit_new_success_spec_witness :
    newState.view = ViewMode.new ∧
    (handleFormSubmit localBase newState (some noteD)).1.notes =
      noteD :: newState.notes ∧
    (handleFormSubmit localBase newState (some noteD)).1.view = ViewMode.edit :=
  ⟨rfl, (handleFormSubmit_new_success_spec localBase newState noteD rfl).1,
    (handleFormSubmit_new_success_spec localBase newState noteD rfl).2.2⟩

/-- C9: submitting the form while the view is `edit` with no selection
issues no network request and leaves the collection, selection, view mode,
and form draft unchanged, but clears any existing error and sets then
resets the loading flag. -/
theorem handleFormSubmit_no_selection_frame (base : String) (s : AppState)
    (outcome : Option Note) (hv : s.view = ViewMode.edit)
    (hs : s.selected = none) :
    (handleFormSubmit base s outcome).2 = none ∧
    (handleFormSubmit base s outcome).1.notes = s.notes ∧
    (handleFormSubmit base s outcome).1.selected = none ∧
    (handleFormSubmit base s outcome).1.view = ViewMode.edit ∧
    (handleFormSubmit base s outcome).1.formData = s.formData ∧
    (handleFormSubmit base s outcome).1.error = none ∧
    (handleFormSubmit base s outcome).1.loading = false ∧
    (formSubmitStart s).loading = true ∧
    (formSubmitStart s).error = none := by
  obtain ⟨notes, search, loading, selected, view, fd, err⟩ := s
  subst hv
  subst hs
  cases outcome <;> exact ⟨rfl, rfl, rfl, rfl, rfl, rfl, rfl, rfl, rfl⟩

theorem handleFormSubmit_no_selection_frame_witness :
    orphanEditState.view = ViewMode.edit ∧
    orphanEditState.selected = none ∧
    orphanEditState.error = some "Failed to load notes." ∧
    (handleFormSubmit localBase orphanEditState none).2 = none ∧
    (handleFormSubmit localBase orphanEditState none).1.error = none :=
  ⟨rfl, rfl, rfl,
    (handleFormSubmit_no_selection_frame localBase orphanEditState none rfl rfl).1,
    (handleFormSubmit_no_selection_frame localBase orphanEditState none
      rfl rfl).2.2.2.2.2.1⟩

/-- C10: the delete action never clears the error slot — a successful
delete keeps whatever error message was previously set, a failed delete
overwrites it with "Delete failed.", while form submission resets the
error to absent before its call. -/
theorem handleDelete_never_clears_error (base : String) (s : AppState)
    (sel : Note) (msg : String) (hs : s.selected = some sel)
    (he : s.error = some msg) :
    (handleDelete base s true).1.error = some msg ∧
    (handleDelete base s false).1.error = some "Delete failed." ∧
    (formSubmitStart s).error = none := by
  obtain ⟨notes, search, loading, selected, view, fd, err⟩ := s
  subst hs
  subst he
  exact ⟨rfl, rfl, rfl⟩

theorem handleDelete_never_clears_error_witness :
    erroredEditState.selected = some noteB ∧
    erroredEditState.error = some "Save failed." ∧
    (handleDelete localBase erroredEditState true).1.error = some "Save failed." :=
  ⟨rfl, rfl,
    (handleDelete_never_clears_error localBase erroredEditState noteB
      "Save failed." rfl rfl).1⟩

/-- C1: in the `edit` view with a selected note, a successful update
replaces the collection entry whose id equals the returned note's id by
the returned note, leaves every entry with a different id (and the
collection length) unchanged, and makes the returned note the selected
note. -/
theorem handleFormSubmit_edit_success_spec (base : String) (s : AppState)
    (sel n : Note) (hv : s.view = ViewMode.edit) (hs : s.selected = some sel) :
    (handleFormSubmit base s (some n)).1.selected = some n ∧
    (handleFormSubmit base s (some n)).1.notes.length = s.notes.length ∧
    ∀ i (h : i < s.notes.length)
      (h2 : i < (handleFormSubmit base s (some n)).1.notes.length),
      ((s.notes.get ⟨i, h⟩).id = n.id →
        (handleFormSubmit base s (some n)).1.notes.get ⟨i, h2⟩ = n) ∧
      ((s.notes.get ⟨i, h⟩).id ≠ n.id →
        (handleFormSubmit base s (some n)).1.notes.get ⟨i, h2⟩ =
          s.notes.get ⟨i, h⟩) := by
  obtain ⟨notes, search, loading, selected, view, fd, err⟩ := s
  subst hv
  subst hs
  refine ⟨rfl, by simp [handleFormSubmit, formSubmitStart], ?_⟩
  intro i h h2
  constructor
  · intro hid
    simp only [handleFormSubmit, formSubmitStart, List.get_eq_getElem,
      List.getElem_map]
    exact if_pos hid
  · intro hid
    simp only [handleFormSubmit, formSubmitStart, List.get_eq_getElem,
      List.getElem_map]
    exact if_neg hid

theorem handleFormSubmit_edit_success_spec_witness :
    editState.view = ViewMode.edit ∧
    editState.selected = some noteB ∧
    (handleFormSubmit localBase editState (some noteB2)).1.selected =
      some noteB2 ∧
    (handleFormSubmit localBase editState (some noteB2)).1.notes =
      [noteA, noteB2, noteC] :=
  ⟨rfl, rfl,
    (handleFormSubmit_edit_success_spec localBase editState noteB noteB2
      rfl rfl).1,
    by decide⟩

/-- C2: in the `edit` view with a selected note: the synchronous prefix of
a submission clears the error and sets the loading flag; a failed update
leaves the collection, selection, view, and draft unchanged and sets the
error to "Save failed."; retrying the same edit successfully produces
exactly the state and request of a first-time success, whose error slot is
cleared; and the loading flag ends false whatever the outcome. -/
theorem handleFormSubmit_edit_error_handling (base : String) (s : AppState)
    (sel : Note) (hv : s.view = ViewMode.edit) (hs : s.selected = some sel) :
    ((formSubmitStart s).error = none ∧ (formSubmitStart s).loading = true) ∧
    ((handleFormSubmit base s none).1.notes = s.notes ∧
      (handleFormSubmit base s none).1.selected = some sel ∧
      (handleFormSubmit base s none).1.view = ViewMode.edit ∧
      (handleFormSubmit base s none).1.formData = s.formData ∧
      (handleFormSubmit base s none).1.error = some "Save failed.") ∧
    (∀ n : Note,
      handleFormSubmit base (handleFormSubmit base s none).1 (some n) =
        handleFormSubmit base s (some n) ∧
      (handleFormSubmit base s (some n)).1.error = none) ∧
    (∀ outcome : Option Note,
      (handleFormSubmit base s outcome).1.loading = false) := by
  obtain ⟨notes, search, loading, selected, view, fd, err⟩ := s
  subst hv
  subst hs
  refine ⟨⟨rfl, rfl⟩, ⟨rfl, rfl, rfl, rfl, rfl⟩, ?_, ?_⟩
  · intro n
    exact ⟨rfl, rfl⟩
  · intro outcome
    cases outcome <;> rfl

theorem handleFormSubmit_edit_error_handling_witness :
    editState.view = ViewMode.edit ∧
    editState.selected = some noteB ∧
    (handleFormSubmit localBase editState none).1.error = some "Save failed." ∧
    (handleFormSubmit localBase editState none).1.notes = editState.notes :=
  ⟨rfl, rfl,
    (handleFormSubmit_edit_error_handling localBase editState noteB
      rfl rfl).2.1.2.2.2.2,
    (handleFormSubmit_edit_error_handling localBase editState noteB
      rfl rfl).2.1.1⟩

/-- Filtering out one id from a list whose ids are pairwise distinct
removes exactly one element when a note with that id is present. -/
theorem filter_ne_id_length (l : List Note) (sel : Note)
    (hnd : (l.map Note.id).Nodup) (hmem : sel ∈ l) :
    (l.filter fun n => n.id != sel.id).length + 1 = l.length := by
  induction l with
  | nil => cases hmem
  | cons a t ih =>
    rw [List.map_cons, List.nodup_cons] at hnd
    rcases List.mem_cons.mp hmem with rfl | hm
    · have ht : t.filter (fun n => n.id != sel.id) = t := by
        rw [List.filter_eq_self]
        intro x hx
        rw [bne_iff_ne, ne_eq]
        intro hxe
        exact hnd.1 (by rw [← hxe]; exact List.mem_map_of_mem Note.id hx)
      have hps : (sel.id != sel.id) = false := by simp
      simp [List.filter_cons, hps, ht]
    · by_cases hae : a.id = sel.id
      · exact absurd (by rw [hae]; exact List.mem_map_of_mem Note.id hm) hnd.1
      · have hpa : (a.id != sel.id) = true := bne_iff_ne.mpr hae
        have hlen := ih hnd.2 hm
        simp only [List.filter_cons, hpa, if_true, List.length_cons]
        omega

/-- C5: with a note selected, a successful delete keeps the remaining
notes as a sublist of the old collection (prior relative order), removes
every entry bearing the selected id and no other (exactly one entry when
the ids are pairwise distinct and the selected note is present), clears
the selection, and switches the view to `list`; a failed delete sets the
error to "Delete failed." and leaves the collection unchanged. -/
theorem handleDelete_spec (base : String) (s : AppState) (sel : Note)
    (hs : s.selected = some sel) :
    ((handleDelete base s true).1.notes.Sublist s.notes ∧
      (∀ x ∈ (handleDelete base s true).1.notes, x.id ≠ sel.id) ∧
      (∀ x ∈ s.notes, x.id ≠ sel.id → x ∈ (handleDelete base s true).1.notes) ∧
      ((s.notes.map Note.id).Nodup → sel ∈ s.notes →
        (handleDelete base s true).1.notes.length + 1 = s.notes.length) ∧
      (handleDelete base s true).1.selected = none ∧
      (handleDelete base s true).1.view = ViewMode.list) ∧
    ((handleDelete base s false).1.error = some "Delete failed." ∧
      (handleDelete base s false).1.notes = s.notes) := by
  obtain ⟨notes, search, loading, selected, view, fd, err⟩ := s
  subst hs
  refine ⟨⟨?_, ?_, ?_, ?_, rfl, rfl⟩, rfl, rfl⟩
  · exact List.filter_sublist notes
  · intro x hx
    exact bne_iff_ne.mp (List.mem_filter.mp hx).2
  · intro x hx hne
    exact List.mem_filter.mpr ⟨hx, bne_iff_ne.mpr hne⟩
  · intro hnd hmem
    exact filter_ne_id_length notes sel hnd hmem

theorem handleDelete_spec_witness :
    editState.selected = some noteB ∧
    (editState.notes.map Note.id).Nodup ∧
    noteB ∈ editState.notes ∧
    (handleDelete localBase editState true).1.notes.length + 1 =
      editState.notes.length ∧
    (handleDelete localBase editState true).1.notes = [noteA, noteC] ∧
    (handleDelete localBase editState true).1.selected = none :=
  ⟨rfl, by decide, by decide,
    (handleDelete_spec localBase editState noteB rfl).1.2.2.2.1
      (by decide) (by decide),
    by decide,
    (handleDelete_spec localBase editState noteB rfl).1.2.2.2.2.1⟩

/-- C6: the listing request targets `{base}/notes` for the empty query and
`{base}/notes?search={url-encoded query}` for a non-empty one; any non-ok
response makes the fetch raise "Failed to fetch notes"; and a search
submission whose query is empty issues the same request target as the
initial unfiltered load. -/
theorem fetchNotes_request_spec (base query : String)
    (resp : HttpResponse (List Note)) :
    (query = "" → fetchNotesUrl base query = base ++ "/notes") ∧
    (query ≠ "" →
      fetchNotesUrl base query =
        base ++ "/notes?search=" ++ encodeURIComponent query) ∧
    (resp.ok = false → fetchNotes resp = Except.error "Failed to fetch notes") ∧
    (∀ (s : AppState) (r r2 : Option (List Note)), s.search = "" →
      (handleSearch base s r).2 = (initialLoad base s r2).2) := by
  refine ⟨?_, ?_, ?_, ?_⟩
  · rintro rfl
    simp [fetchNotesUrl]
  · intro hq
    rw [fetchNotesUrl, if_neg hq]
  · intro hok
    simp [fetchNotes, hok]
  · intro s r r2 hsearch
    simp [handleSearch, reloadNotes, initialLoad, hsearch]

theorem fetchNotes_request_spec_witness :
    ("alpha beta" ≠ "") ∧
    fetchNotesUrl localBase "alpha beta" =
      localBase ++ "/notes?search=" ++ encodeURIComponent "alpha beta" ∧
    encodeURIComponent "alpha beta" = "alpha%20beta" :=
  ⟨by decide,
    (fetchNotes_request_spec localBase "alpha beta"
      { ok := true, body := [] }).2.1 (by decide),
    by decide⟩

/-- C7: the list-view card preview: content strictly longer than 120
characters renders as its first 120 characters followed by a single
ellipsis character (total length 121); content of 120 characters or fewer
renders unmodified. -/
theorem notePreview_truncation (c : String) :
    (120 < c.length →
      notePreview c = c.take 120 ++ "…" ∧
      (c.take 120).length = 120 ∧
      (notePreview c).length = 121) ∧
    (c.length ≤ 120 → notePreview c = c) := by
  obtain ⟨l⟩ := c
  constructor
  · intro hlen
    have hlen' : 120 < l.length := hlen
    have hp : notePreview (String.mk l) = (String.mk l).take 120 ++ "…" := by
      rw [notePreview, if_pos hlen]
    have htake : ((String.mk l).take 120).length = 120 := by
      rw [String.take_eq]
      show (l.take 120).length = 120
      rw [List.length_take]
      omega
    refine ⟨hp, htake, ?_⟩
    rw [hp, String.length_append, htake]
    decide
  · intro hle
    rw [notePreview, if_neg (not_lt.mpr hle)]

def longContent : String := String.mk (List.replicate 150 'a')

set_option maxRecDepth 4000 in
theorem notePreview_truncation_witness :
    120 < longContent.length ∧
    notePreview longContent = longContent.take 120 ++ "…" :=
  ⟨by decide, ((notePreview_truncation longContent).1 (by decide)).1⟩

/-- C8 counterexample: the background token literal in tailwind.config.js
is the three-digit shorthand "#fff", not the six-digit string "#ffffff"
the claim states. -/
theorem tailwind_background_not_ffffff :
    tailwindTheme.background ≠ "#ffffff" := by decide

/-- C8 (amended): the theme declares exactly primary = "#2563eb",
secondary = "#64748b", accent = "#fde047", the font family token sans =
["system-ui", "sans-serif"], and background as the shorthand literal
"#fff" — which denotes the same color as #ffffff. -/
theorem tailwindTheme_tokens :
    tailwindTheme.primary = "#2563eb" ∧
    tailwindTheme.secondary = "#64748b" ∧
    tailwindTheme.accent = "#fde047" ∧
    tailwindTheme.background = "#fff" ∧
    expandHexShorthand tailwindTheme.background = "#ffffff" ∧
    tailwindTheme.fontSans = ["system-ui", "sans-serif"] := by
  refine ⟨rfl, rfl, rfl, rfl, ?_, rfl⟩
  decide
